import Mathlib

/-!
Shallow embedding of the blankbook application (src/ThankYou.py), a small
Flask site: IP-aware request logging, a JSON file view counter, a Markdown
diary listing, and an HTTP route table with a catch-all 404 handler.

Python strings are modelled as Lean String values; the Python string
primitives used by the source (startswith, strip, split, replace,
endswith, lexicographic comparison) are re-implemented over the character
list so that every definition evaluates inside the kernel. Python string
comparison and Lean Char comparison both order by Unicode code point.
-/

/-- Python list-of-characters test that p is an initial segment of s
(the core of str.startswith). -/
def listPre : List Char → List Char → Bool
  | [], _ => true
  | _ :: _, [] => false
  | p :: ps, c :: cs => p = c && listPre ps cs

/-- Python s.startswith(p) (also used, on reversed lists, for endswith). -/
def pyStartswith (s p : String) : Bool := listPre p.data s.data

/-- Python s.endswith(p). -/
def pyEndswith (s p : String) : Bool := listPre p.data.reverse s.data.reverse

/-- The whitespace characters removed by Python str.strip() (ASCII part;
the source only ever strips spaces around IP strings). -/
def isWs (c : Char) : Bool :=
  c = ' ' || c = '\t' || c = '\n' || c = '\r' || c = '\x0b' || c = '\x0c'

/-- Remove leading and trailing whitespace from a character list. -/
def trimChars (l : List Char) : List Char :=
  ((l.dropWhile isWs).reverse.dropWhile isWs).reverse

/-- Python ip.strip() as used in log_action. -/
def pyStrip (s : String) : String := String.mk (trimChars s.data)

/-- Helper for Python s.split(sep) with a one-character separator:
accumulates the current field (reversed) and cuts at each comma. -/
def splitCommaAux : List Char → List Char → List (List Char)
  | [], acc => [acc.reverse]
  | c :: cs, acc =>
      if c = ',' then acc.reverse :: splitCommaAux cs []
      else splitCommaAux cs (c :: acc)

/-- Python x_forwarded_for.split(",") from log_action. -/
def pySplitComma (s : String) : List String :=
  (splitCommaAux s.data []).map String.mk

/-- The private-address test of log_action, line 90 of the source:
ip.strip().startswith(("10.", "172.", "192.168.")). -/
def isPrivateIp (s : String) : Bool :=
  pyStartswith s "10." || pyStartswith s "172." || pyStartswith s "192.168."

/-- Modelled from the spec: a private-range address of the forms 10.x,
172.16-31.x, or 192.168.x, judged by string prefixes. This definition
follows the words of the spec sentence, for comparison with the
implemented test isPrivateIp. -/
def isPrivateSpecRange (s : String) : Bool :=
  pyStartswith s "10." || pyStartswith s "192.168." ||
  (["172.16.", "172.17.", "172.18.", "172.19.", "172.20.", "172.21.",
    "172.22.", "172.23.", "172.24.", "172.25.", "172.26.", "172.27.",
    "172.28.", "172.29.", "172.30.", "172.31."].any fun p => pyStartswith s p)

/-- Headers are Option String: none when the header is absent from the
request, some v (possibly empty) when it is present with value v.
Line 89: ip_chain = x_forwarded_for.split(",") if x_forwarded_for else [].
Python truthiness makes both None and the empty string yield []. -/
def ipChain : Option String → List String
  | none => []
  | some s => if s = "" then [] else pySplitComma s

/-- Line 90: next((ip.strip() for ip in ip_chain if not
ip.strip().startswith((...))), None) - the first stripped entry of the
chain that does not pass the private test, if any. -/
def public_ip (chain : List String) : Option String :=
  (chain.map pyStrip).find? fun ip => !(isPrivateIp ip)

/-- Python operator or over an optional string and a fallback:
None and the empty string are falsy and select the fallback. -/
def pyOr (a : Option String) (b : String) : String :=
  match a with
  | none => b
  | some s => if s = "" then b else s

/-- Line 91: real_ip = cf_ip or public_ip or request.remote_addr, where
cf_ip is the CF-Connecting-IP header and remote the peer address. -/
def real_ip (cf xff : Option String) (remote : String) : String :=
  pyOr cf (pyOr (public_ip (ipChain xff)) remote)

/-- Python lexicographic string comparison le over character lists, by
Unicode code point; a proper initial segment compares smaller. -/
def listLe : List Char → List Char → Bool
  | [], _ => true
  | _ :: _, [] => false
  | a :: as, b :: bs =>
      if a.toNat < b.toNat then true
      else if b.toNat < a.toNat then false
      else listLe as bs

/-- Python string comparison a smaller-or-equal b. -/
def pyStrLe (a b : String) : Bool := listLe a.data b.data

/-- The descending order used by sorted(..., reverse=True) in
diaries_page: a before b when b compares smaller-or-equal a. -/
def descStr (a b : String) : Prop := pyStrLe b a = true

instance : DecidableRel descStr :=
  fun a b => inferInstanceAs (Decidable (pyStrLe b a = true))

/-- sorted(os.listdir(DIARY_FOLDER), reverse=True) from line 140:
the file list arranged in descending lexicographic order. -/
def sortDesc (l : List String) : List String := List.insertionSort descStr l

/-- JSON values as parsed by json.load: null, booleans, integers,
strings, arrays and objects (association lists; objects produced by
json.load carry distinct keys). JSON floats do not occur in any of the
data files of this application and are out of scope. -/
inductive JVal where
  | jnull
  | jbool (b : Bool)
  | jnum (n : Int)
  | jstr (s : String)
  | jarr (xs : List JVal)
  | jobj (kvs : List (String × JVal))

/-- Python dict lookup d[k] on a parsed JSON object. -/
def jlookup (kvs : List (String × JVal)) (k : String) : Option JVal :=
  match kvs with
  | [] => none
  | (k2, v) :: rest => if k2 = k then some v else jlookup rest k

/-- Python dict assignment d[k] = v: replace the value at an existing
key in place, append the pair at the end otherwise. -/
def jset (kvs : List (String × JVal)) (k : String) (v : JVal) :
    List (String × JVal) :=
  match kvs with
  | [] => [(k, v)]
  | (k2, w) :: rest => if k2 = k then (k2, v) :: rest else (k2, w) :: jset rest k v

/-- State of the counter file Data/views.json as seen by
get_and_increment_views: the open call can fail (file missing), json.load
can fail (unreadable text), or the file parses to a JSON value. -/
inductive ViewsFile where
  | missing
  | unreadable
  | stored (v : JVal)

/-- Python True + 1 = 2 and False + 1 = 1: a JSON boolean in the
total_views field would be incremented as an integer. -/
def pyBoolInc (b : Bool) : Int := if b then 2 else 1

/-- Lines 96-107 of the source. Reads the counter file, parses it,
increments data with key total_views by one, seeks to the start, writes
the whole document back and truncates, returning the new value; any
exception (missing file, parse failure, subscripting a non-object,
KeyError on a missing key, TypeError on a non-numeric value) is caught
before the write and -1 is returned with the file left as it was. -/
def get_and_increment_views : ViewsFile → Int × ViewsFile
  | .missing => (-1, .missing)
  | .unreadable => (-1, .unreadable)
  | .stored v =>
    match v with
    | .jobj kvs =>
      match jlookup kvs "total_views" with
      | some (.jnum n) =>
          (n + 1, .stored (.jobj (jset kvs "total_views" (.jnum (n + 1)))))
      | some (.jbool b) =>
          (pyBoolInc b, .stored (.jobj (jset kvs "total_views" (.jnum (pyBoolInc b)))))
      | _ => (-1, .stored v)
    | _ => (-1, .stored v)

/-- The integer stored in the total_views field of the counter file,
when the file holds a JSON object with an integer at that key. -/
def storedViews : ViewsFile → Option Int
  | .stored (.jobj kvs) =>
    match jlookup kvs "total_views" with
    | some (.jnum n) => some n
    | _ => none
  | _ => none

/-- The JSON value stored at an arbitrary key of the counter document. -/
def fileField : ViewsFile → String → Option JVal
  | .stored (.jobj kvs), k => jlookup kvs k
  | _, _ => none

/-- The states of the counter file on which get_and_increment_views
raises before reaching the write step (open failure, parse failure,
subscripting a non-object, missing key, non-numeric value). -/
def incRaises : ViewsFile → Bool
  | .missing => true
  | .unreadable => true
  | .stored (.jobj kvs) =>
    match jlookup kvs "total_views" with
    | some (.jnum _) => false
    | some (.jbool _) => false
    | _ => true
  | .stored _ => true

/-- N sequential executions of the views increment operation. -/
def runN : Nat → ViewsFile → ViewsFile
  | 0, s => s
  | n + 1, s => runN n (get_and_increment_views s).2

/-- The counter file as written at startup when absent:
json.dump of the default object with total_views equal to zero. -/
def freshViews : ViewsFile :=
  .stored (.jobj [("total_views", .jnum 0)])

/-- Removal of every occurrence of the pattern .md, scanning left to
right: Python filename.replace(".md", "") from line 147. -/
def removeMdChars : List Char → List Char
  | '.' :: 'm' :: 'd' :: rest => removeMdChars rest
  | c :: rest => c :: removeMdChars rest
  | [] => []

/-- Python filename.replace(".md", ""): the diary title computation. -/
def pyRemoveMd (s : String) : String := String.mk (removeMdChars s.data)

/-- Modelled from the spec: a title derived by stripping the file
extension from the filename. This definition follows the words of the
spec sentence, for comparison with the implemented title computation
pyRemoveMd. -/
def stripExtSpec (fn : String) : String :=
  if pyEndswith fn ".md" then String.mk (fn.data.take (fn.data.length - 3)) else fn

/-- One rendered diary entry: title and HTML content, line 146-149. -/
structure DiaryEntry where
  title : String
  content : String

/-- The environment a request executes in: the three IP signals read
from the request, the counter file state, the honour and goodbyes files
(none when reading or parsing them fails), the diary directory listing
(error when os.listdir raises), the diary file reader (error when open
or read raises), and the Markdown renderer. render stands for
markdown.markdown with the fenced_code and codehilite extensions,
treated as an opaque external collaborator. -/
structure Env where
  cf : Option String
  xff : Option String
  remote : String
  views : ViewsFile
  honour : Option JVal
  goodbyes : Option JVal
  diaryList : Except Unit (List String)
  diaryRead : String → Except Unit String
  render : String → String

/-- The loop of lines 140-149: walk the sorted directory listing, and
for each name ending in .md read the file (propagating any failure) and
build the entry from the title and the rendered content. -/
def diariesLoop (read : String → Except Unit String) (render : String → String) :
    List String → Except Unit (List DiaryEntry)
  | [] => .ok []
  | fn :: rest =>
    if pyEndswith fn ".md" then
      match read fn with
      | .error e => .error e
      | .ok md =>
        match diariesLoop read render rest with
        | .error e => .error e
        | .ok es => .ok ({ title := pyRemoveMd fn, content := render md } :: es)
    else diariesLoop read render rest

/-- The diary listing: enumerate the directory (os.listdir can fail),
sort descending, then run the rendering loop. -/
def list_diaries (env : Env) : Except Unit (List DiaryEntry) :=
  match env.diaryList with
  | .error e => .error e
  | .ok files => diariesLoop env.diaryRead env.render (sortDesc files)

/-- One structured line written by log_action, line 93: the action
label, the resolved real IP and the three raw signals. -/
structure LogLine where
  action : String
  realIp : String
  cfIp : Option String
  xffRaw : Option String
  remote : String

/-- log_action, lines 86-93: resolve the real IP from the request
signals and emit one info line. -/
def log_action (action : String) (cf xff : Option String) (remote : String) : LogLine :=
  { action := action, realIp := real_ip cf xff remote,
    cfIp := cf, xffRaw := xff, remote := remote }

/-- An HTTP response of this application: a rendered template (bare, or
carrying the JSON entries of the honour and goodbyes pages, or carrying
diary entries), a JSON body from the views endpoint, a redirect, or an
abort with a status code. -/
inductive HttpResp where
  | page (template : String)
  | pageData (template : String) (entries : JVal)
  | pageDiaries (template : String) (entries : List DiaryEntry)
  | json (total_views : Int)
  | redirect (target : String)
  | serverError (code : Nat)

/-- The observable outcome of handling one request: the log_action
lines emitted, the response, and the counter file state afterwards. -/
structure HandleResult where
  logs : List LogLine
  resp : HttpResp
  views : ViewsFile

/-- Shorthand: log_action applied to the request signals of env. -/
def logA (env : Env) (action : String) : LogLine :=
  log_action action env.cf env.xff env.remote

/-- The /honour page, lines 125-134: load the JSON file, fall back to
the empty list on failure, log, render. -/
def honour_wall (env : Env) : HandleResult :=
  let entries := match env.honour with
    | some v => v
    | none => .jarr []
  { logs := [logA env "Viewed Honour Wall"],
    resp := .pageData "honour.html" entries, views := env.views }

/-- The /goodbyes page, lines 156-165: same shape as the honour page. -/
def goodbyes_page (env : Env) : HandleResult :=
  let entries := match env.goodbyes with
    | some v => v
    | none => .jarr []
  { logs := [logA env "Viewed Goodbyes Page"],
    resp := .pageData "goodbyes.html" entries, views := env.views }

/-- The /diaries page, lines 136-154: on success log and render the
entries; on any enumeration or read failure the exception reaches the
handler of line 152, which logs an error (not a log_action line) and
aborts with status 500. -/
def diaries_page (env : Env) : HandleResult :=
  match list_diaries env with
  | .ok es =>
      { logs := [logA env "Viewed Diaries Page"],
        resp := .pageDiaries "diaries.html" es, views := env.views }
  | .error _ => { logs := [], resp := .serverError 500, views := env.views }

/-- The /api/views endpoint, lines 167-171: increment (or fail to), log,
return the JSON body in every case. -/
def views_api (env : Env) : HandleResult :=
  let r := get_and_increment_views env.views
  { logs := [logA env "Viewed /api/views"], resp := .json r.1, views := r.2 }

/-- The catch-all 404 handler, lines 188-191: one log_action line and a
redirect to the home route. -/
def page_not_found (env : Env) : HandleResult :=
  { logs := [logA env "404 Redirect"], resp := .redirect "/", views := env.views }

/-- The paths bound to a route by the app.route decorators. -/
def routes : List String :=
  ["/", "/thankyou", "/why", "/honour", "/diaries", "/goodbyes",
   "/api/views", "/parkour", "/weekly", "/projects"]

/-- The routing layer: dispatch a request path to its handler, or to
the catch-all 404 handler when no route matches. -/
def handle (env : Env) (path : String) : HandleResult :=
  if path = "/" then
    { logs := [logA env "Viewed Home Page"], resp := .page "home.html", views := env.views }
  else if path = "/thankyou" then
    { logs := [logA env "Viewed Thank You Page"], resp := .page "thankyou.html", views := env.views }
  else if path = "/why" then
    { logs := [logA env "Viewed Why Page"], resp := .page "why.html", views := env.views }
  else if path = "/honour" then honour_wall env
  else if path = "/diaries" then diaries_page env
  else if path = "/goodbyes" then goodbyes_page env
  else if path = "/api/views" then views_api env
  else if path = "/parkour" then
    { logs := [logA env "Viewed Parkour Page"], resp := .page "parkour.html", views := env.views }
  else if path = "/weekly" then
    { logs := [logA env "Viewed Weekly Page"], resp := .page "weekly.html", views := env.views }
  else if path = "/projects" then
    { logs := [logA env "Viewed Projects Page"], resp := .page "projects.html", views := env.views }
  else page_not_found env

/-- Base request environment used to instantiate theorems on concrete
inputs: no proxy headers, a public peer, fresh counter, empty diary
directory. -/
def envBase : Env :=
  { cf := none, xff := none, remote := "203.0.113.9", views := freshViews,
    honour := none, goodbyes := none, diaryList := .ok [],
    diaryRead := fun _ => .ok "", render := fun s => s }

/-- Environment whose counter file has been deleted. -/
def envViewsMissing : Env := { envBase with views := .missing }

/-- Environment with one diary file whose read fails. -/
def envDiaryFail : Env :=
  { envBase with diaryList := .ok ["2024-01-01.md"],
                 diaryRead := fun _ => .error () }

/-- Environment with two dated diary files and one stray text file. -/
def envDiaryTwo : Env :=
  { envBase with diaryList := .ok ["2024-01-01.md", "notes.txt", "2024-02-01.md"],
                 diaryRead := fun _ => .ok "body" }

/-- Environment with a single diary file whose name contains .md twice. -/
def envDiaryDouble : Env :=
  { envBase with diaryList := .ok ["a.md.md"],
                 diaryRead := fun _ => .ok "body",
                 render := fun _ => "X" }

theorem listLe_total : ∀ a b : List Char, listLe a b = true ∨ listLe b a = true := by
  intro a
  induction a with
  | nil => intro b; left; rfl
  | cons x xs ih =>
    intro b
    cases b with
    | nil => right; rfl
    | cons y ys =>
      simp only [listLe]
      by_cases hxy : x.toNat < y.toNat
      · left; simp [hxy]
      · by_cases hyx : y.toNat < x.toNat
        · right; simp [hyx]
        · rcases ih ys with h | h
          · left; simp [hxy, hyx, h]
          · right; simp [hxy, hyx, h]

theorem listLe_trans :
    ∀ a b c : List Char, listLe a b = true → listLe b c = true → listLe a c = true := by
  intro a
  induction a with
  | nil => intro b c _ _; rfl
  | cons x xs ih =>
    intro b c hab hbc
    cases b with
    | nil => simp [listLe] at hab
    | cons y ys =>
      cases c with
      | nil => simp [listLe] at hbc
      | cons z zs =>
        simp only [listLe] at hab hbc ⊢
        by_cases hxy : x.toNat < y.toNat
        · rw [if_pos hxy] at hab
          by_cases hyz : y.toNat < z.toNat
          · have hxz : x.toNat < z.toNat := by omega
            simp [hxz]
          · rw [if_neg hyz] at hbc
            by_cases hzy : z.toNat < y.toNat
            · rw [if_pos hzy] at hbc; exact absurd hbc (by simp)
            · have hxz : x.toNat < z.toNat := by omega
              simp [hxz]
        · by_cases hyx : y.toNat < x.toNat
          · rw [if_neg hxy, if_pos hyx] at hab
            exact absurd hab (by simp)
          · rw [if_neg hxy, if_neg hyx] at hab
            by_cases hyz : y.toNat < z.toNat
            · rw [if_pos hyz] at hbc
              have hxz : x.toNat < z.toNat := by omega
              simp [hxz]
            · rw [if_neg hyz] at hbc
              by_cases hzy : z.toNat < y.toNat
              · rw [if_pos hzy] at hbc; exact absurd hbc (by simp)
              · rw [if_neg hzy] at hbc
                have hxz : ¬ x.toNat < z.toNat := by omega
                have hzx : ¬ z.toNat < x.toNat := by omega
                rw [if_neg hxz, if_neg hzx]
                exact ih ys zs hab hbc

theorem jlookup_jset_self (kvs : List (String × JVal)) (k : String) (v : JVal) :
    jlookup (jset kvs k v) k = some v := by
  induction kvs with
  | nil => simp [jset, jlookup]
  | cons p rest ih =>
    obtain ⟨k2, w⟩ := p
    by_cases h : k2 = k
    · simp [jset, jlookup, h]
    · simp [jset, jlookup, h, ih]

theorem jlookup_jset_other (kvs : List (String × JVal)) (k k2 : String) (v : JVal)
    (h : k2 ≠ k) : jlookup (jset kvs k v) k2 = jlookup kvs k2 := by
  induction kvs with
  | nil => simp [jset, jlookup, Ne.symm h]
  | cons p rest ih =>
    obtain ⟨k3, w⟩ := p
    by_cases h3 : k3 = k
    · subst h3
      simp [jset, jlookup, Ne.symm h]
    · by_cases h2 : k3 = k2
      · subst h2
        simp [jset, jlookup, h]
      · simp [jset, jlookup, h3, h2, ih]

theorem runN_canonical (N : Nat) :
    ∀ n : Int, runN N (.stored (.jobj [("total_views", .jnum n)]))
      = .stored (.jobj [("total_views", .jnum (n + N))]) := by
  induction N with
  | zero => intro n; simp [runN]
  | succ m ih =>
    intro n
    have hstep : get_and_increment_views (.stored (.jobj [("total_views", .jnum n)]))
        = (n + 1, .stored (.jobj [("total_views", .jnum (n + 1))])) := rfl
    show runN m (get_and_increment_views _).2 = _
    rw [hstep, ih (n + 1)]
    have harith : n + 1 + (m : Int) = n + ((m + 1 : Nat) : Int) := by push_cast; ring
    rw [harith]

theorem diariesLoop_ok (read : String → Except Unit String) (render : String → String)
    (reader : String → String) (hr : ∀ fn, read fn = .ok (reader fn)) :
    ∀ l : List String, diariesLoop read render l =
      .ok ((l.filter fun fn => pyEndswith fn ".md").map
            fun fn => { title := pyRemoveMd fn, content := render (reader fn) }) := by
  intro l
  induction l with
  | nil => simp [diariesLoop]
  | cons fn rest ih =>
    by_cases h : pyEndswith fn ".md" = true
    · simp [diariesLoop, h, hr fn, ih]
    · simp [diariesLoop, h, ih]

theorem diariesLoop_error (read : String → Except Unit String) (render : String → String)
    (fn : String) :
    ∀ l : List String, fn ∈ l → pyEndswith fn ".md" = true → read fn = .error () →
      diariesLoop read render l = .error () := by
  intro l
  induction l with
  | nil => intro h _ _; exact absurd h (List.not_mem_nil _)
  | cons a rest ih =>
    intro hmem hmd hrd
    rcases List.mem_cons.mp hmem with rfl | hmem2
    · simp [diariesLoop, hmd, hrd]
    · by_cases ha : pyEndswith a ".md" = true
      · cases hread : read a with
        | error e => cases e; simp [diariesLoop, ha, hread]
        | ok md => simp [diariesLoop, ha, hread, ih hmem2 hmd hrd]
      · simp [diariesLoop, ha, ih hmem2 hmd hrd]

/-- C1 counterexample: the code skips every entry starting with the
string 172., so the non-private-range address 172.32.0.1 is skipped as
well, and the selected public IP of the chain 172.32.0.1, 8.8.8.8 is
8.8.8.8, while the claim selects its first entry. -/
theorem c1_counterexample :
    isPrivateIp "172.32.0.1" = true ∧ isPrivateSpecRange "172.32.0.1" = false ∧
    public_ip ["172.32.0.1", "8.8.8.8"] = some "8.8.8.8" := by decide

/-- C1 amended: an entry of the forwarded-for chain is skipped exactly
when its stripped form starts with one of the string prefixes 10.,
172. (all of 172.x, not only 172.16-31.x) or 192.168.; the selected
public IP is the stripped form of the first entry not skipped, and it
exists exactly when the chain decomposes into skipped entries followed
by a non-skipped one. -/
theorem c1_private_skip (chain : List String) (ip : String) :
    public_ip chain = some ip ↔
      ∃ pre x post, chain = pre ++ x :: post ∧ pyStrip x = ip ∧
        isPrivateIp ip = false ∧ ∀ y ∈ pre, isPrivateIp (pyStrip y) = true := by
  induction chain with
  | nil =>
    constructor
    · intro h; simp [public_ip] at h
    · rintro ⟨pre, x, post, hdec, -⟩
      cases pre <;> simp at hdec
  | cons a l ih =>
    by_cases ha : isPrivateIp (pyStrip a) = false
    · have hfind : public_ip (a :: l) = some (pyStrip a) := by
        unfold public_ip
        simp only [List.map_cons]
        rw [List.find?_cons_of_pos _ (by simp [ha])]
      rw [hfind]
      constructor
      · intro h
        injection h with h
        exact ⟨[], a, l, rfl, h, h ▸ ha, by simp⟩
      · rintro ⟨pre, x, post, hdec, hstrip, hip, hall⟩
        cases pre with
        | nil =>
          simp at hdec
          obtain ⟨rfl, rfl⟩ := hdec
          rw [hstrip]
        | cons b pre2 =>
          simp at hdec
          obtain ⟨rfl, -⟩ := hdec
          have hpriv := hall a (by simp)
          rw [hpriv] at ha
          exact absurd ha (by simp)
    · have ha2 : isPrivateIp (pyStrip a) = true := by
        cases h2 : isPrivateIp (pyStrip a) with
        | false => exact absurd h2 ha
        | true => rfl
      have hfind : public_ip (a :: l) = public_ip l := by
        unfold public_ip
        simp only [List.map_cons]
        rw [List.find?_cons_of_neg _ (by simp [ha2])]
      rw [hfind, ih]
      constructor
      · rintro ⟨pre, x, post, hdec, hstrip, hip, hall⟩
        refine ⟨a :: pre, x, post, by rw [hdec]; rfl, hstrip, hip, ?_⟩
        intro y hy
        rcases List.mem_cons.mp hy with rfl | hy2
        · exact ha2
        · exact hall y hy2
      · rintro ⟨pre, x, post, hdec, hstrip, hip, hall⟩
        cases pre with
        | nil =>
          simp at hdec
          obtain ⟨rfl, rfl⟩ := hdec
          rw [hstrip] at ha2
          rw [ha2] at hip
          exact absurd hip (by simp)
        | cons b pre2 =>
          simp at hdec
          obtain ⟨rfl, hrest⟩ := hdec
          exact ⟨pre2, x, post, hrest, hstrip, hip, fun y hy => hall y (by simp [hy])⟩

/-- C1 witness: the amended characterization evaluated on the chain
10.1.1.1, 8.8.8.8: the first entry is skipped and the second selected. -/
theorem c1_private_skip_witness :
    ∃ pre x post, (["10.1.1.1", "8.8.8.8"] : List String) = pre ++ x :: post ∧
      pyStrip x = "8.8.8.8" ∧ isPrivateIp "8.8.8.8" = false ∧
      ∀ y ∈ pre, isPrivateIp (pyStrip y) = true :=
  (c1_private_skip ["10.1.1.1", "8.8.8.8"] "8.8.8.8").mp (by decide)

/-- C3 counterexample: a present but empty edge-proxy header is not
used as the resolved IP; resolution falls through to the peer address,
while the claim as stated resolves to the header value whenever the
header is present. -/
theorem c3_counterexample :
    real_ip (some "") none "9.9.9.9" = "9.9.9.9" ∧ ("9.9.9.9" : String) ≠ "" :=
  ⟨rfl, by decide⟩

/-- C3 amended: the resolved IP is the edge-proxy header value when
that header is present with a non-empty value; otherwise the first
non-private entry of the forwarded-for chain when it resolves non-empty;
otherwise the peer address. In particular the chain 10.0.0.5, 8.8.8.8
with no edge header resolves to 8.8.8.8, and no headers at all resolve
to the peer address. -/
theorem c3_resolution_order (cf xff : Option String) (remote : String) :
    (∀ c, cf = some c → c ≠ "" → real_ip cf xff remote = c) ∧
    ((cf = none ∨ cf = some "") → ∀ p, public_ip (ipChain xff) = some p → p ≠ "" →
      real_ip cf xff remote = p) ∧
    ((cf = none ∨ cf = some "") →
      (public_ip (ipChain xff) = none ∨ public_ip (ipChain xff) = some "") →
      real_ip cf xff remote = remote) ∧
    real_ip none (some "10.0.0.5, 8.8.8.8") remote = "8.8.8.8" ∧
    real_ip none none remote = remote := by
  refine ⟨?_, ?_, ?_, rfl, rfl⟩
  · rintro c rfl hc
    simp [real_ip, pyOr, hc]
  · rintro (rfl | rfl) p hp hne <;> simp [real_ip, pyOr, hp, hne]
  · rintro (rfl | rfl) (hp | hp) <;> simp [real_ip, pyOr, hp]

/-- C3 witness: the amended resolution order evaluated on concrete
requests: an edge header wins, then the chain, then the peer. -/
theorem c3_resolution_order_witness :
    real_ip (some "1.2.3.4") (some "10.0.0.5, 8.8.8.8") "203.0.113.9" = "1.2.3.4" ∧
    real_ip none (some "10.0.0.5, 8.8.8.8") "203.0.113.9" = "8.8.8.8" ∧
    real_ip none none "203.0.113.9" = "203.0.113.9" := by
  obtain ⟨h1, -, -, h4, h5⟩ :=
    c3_resolution_order (some "1.2.3.4") (some "10.0.0.5, 8.8.8.8") "203.0.113.9"
  exact ⟨h1 "1.2.3.4" rfl (by decide), h4, h5⟩

/-- C9: resolution uses Python truthiness, not presence: an edge-proxy
header present with empty value behaves exactly as an absent one, and
when the resolved public entry of the chain is the empty string the
resolution falls through to the peer address. -/
theorem c9_truthiness :
    (∀ (xff : Option String) (remote : String),
        real_ip (some "") xff remote = real_ip none xff remote) ∧
    (∀ (xff : Option String) (remote : String),
        public_ip (ipChain xff) = some "" → real_ip none xff remote = remote) := by
  constructor
  · intro xff remote; rfl
  · intro xff remote h
    simp [real_ip, pyOr, h]

/-- C9 witness: a forwarded-for header holding a single space strips to
the empty entry and resolution reaches the peer address, with or
without an empty edge header. -/
theorem c9_truthiness_witness :
    real_ip (some "") (some " ") "203.0.113.9" = real_ip none (some " ") "203.0.113.9" ∧
    real_ip none (some " ") "203.0.113.9" = "203.0.113.9" :=
  ⟨c9_truthiness.1 (some " ") "203.0.113.9",
   c9_truthiness.2 (some " ") "203.0.113.9" (by decide)⟩

/-- C2 counterexample: for the diary file a.md.md the rendered title is
a, computed by removing every occurrence of .md, while stripping the
file extension yields a.md; the claim fails on this set of files. -/
theorem c2_counterexample :
    list_diaries envDiaryDouble = Except.ok [{ title := "a", content := "X" }] ∧
    stripExtSpec "a.md.md" = "a.md" ∧ ("a" : String) ≠ "a.md" :=
  ⟨rfl, by decide, by decide⟩

/-- C2 amended: when enumeration and every read succeed, the diary
listing is exactly the Markdown (.md suffixed) files of the directory,
in descending filename order, each paired with the render of its text;
the title is the filename with every occurrence of .md removed (which
equals stripping the extension whenever .md occurs only as the
extension). -/
theorem c2_listing (env : Env) (files : List String) (reader : String → String)
    (h1 : env.diaryList = Except.ok files)
    (h2 : ∀ fn, env.diaryRead fn = Except.ok (reader fn)) :
    ∃ mds : List String,
      mds.Perm (files.filter fun fn => pyEndswith fn ".md") ∧
      mds.Sorted descStr ∧
      list_diaries env = Except.ok (mds.map fun fn =>
        { title := pyRemoveMd fn, content := env.render (reader fn) }) := by
  refine ⟨(sortDesc files).filter fun fn => pyEndswith fn ".md", ?_, ?_, ?_⟩
  · exact (List.perm_insertionSort descStr files).filter _
  · haveI : IsTotal String descStr := ⟨fun a b => listLe_total b.data a.data⟩
    haveI : IsTrans String descStr :=
      ⟨fun a b c hab hbc => listLe_trans c.data b.data a.data hbc hab⟩
    exact List.Pairwise.filter _ (List.sorted_insertionSort descStr files)
  · simp [list_diaries, h1, diariesLoop_ok env.diaryRead env.render reader h2]

/-- C2 witness: the listing of the directory holding 2024-01-01.md,
notes.txt and 2024-02-01.md, with every read succeeding. -/
theorem c2_listing_witness :
    ∃ mds : List String,
      mds.Perm ((["2024-01-01.md", "notes.txt", "2024-02-01.md"] : List String).filter
        fun fn => pyEndswith fn ".md") ∧
      mds.Sorted descStr ∧
      list_diaries envDiaryTwo = Except.ok (mds.map fun fn =>
        { title := pyRemoveMd fn, content := envDiaryTwo.render ((fun _ => "body") fn) }) :=
  c2_listing envDiaryTwo ["2024-01-01.md", "notes.txt", "2024-02-01.md"]
    (fun _ => "body") rfl (fun _ => rfl)

/-- C4: from a freshly initialized counter file holding total_views
zero, N runs of the increment operation store exactly N (each run is a
successful completion), and a single run never decreases the stored
value, so across any sequence the stored value is non-decreasing. -/
theorem c4_counter_invariant :
    (∀ N : Nat, storedViews (runN N freshViews) = some (N : Int)) ∧
    (∀ (s : ViewsFile) (v v' : Int), storedViews s = some v →
      storedViews (get_and_increment_views s).2 = some v' → v ≤ v') := by
  constructor
  · intro N
    rw [show freshViews = .stored (.jobj [("total_views", .jnum 0)]) from rfl,
        runN_canonical]
    simp [storedViews, jlookup]
  · intro s v v' h1 h2
    cases s with
    | missing => simp [storedViews] at h1
    | unreadable => simp [storedViews] at h1
    | stored jv =>
      cases jv with
      | jnull => simp [storedViews] at h1
      | jbool b => simp [storedViews] at h1
      | jnum n => simp [storedViews] at h1
      | jstr t => simp [storedViews] at h1
      | jarr xs => simp [storedViews] at h1
      | jobj kvs =>
        cases hlk : jlookup kvs "total_views" with
        | none => simp [storedViews, hlk] at h1
        | some w =>
          cases w with
          | jnum n =>
            have hv : n = v := by simpa [storedViews, hlk] using h1
            simp only [get_and_increment_views, hlk] at h2
            have hv' : n + 1 = v' := by
              simpa [storedViews, jlookup_jset_self] using h2
            omega
          | jnull => simp [storedViews, hlk] at h1
          | jbool b => simp [storedViews, hlk] at h1
          | jstr t => simp [storedViews, hlk] at h1
          | jarr xs => simp [storedViews, hlk] at h1
          | jobj kvs2 => simp [storedViews, hlk] at h1

/-- C4 witness: three runs from the fresh file store exactly three, and
one step from the fresh file does not decrease the stored value. -/
theorem c4_counter_invariant_witness :
    storedViews (runN 3 freshViews) = some ((3 : Nat) : Int) ∧ (0 : Int) ≤ 1 :=
  ⟨c4_counter_invariant.1 3, c4_counter_invariant.2 freshViews 0 1 rfl rfl⟩

/-- C5: on a counter document holding an integer total_views, the
increment operation returns the old value plus one, the stored value
becomes the old value plus one, and every other field of the document
is written back unchanged. -/
theorem c5_increment (kvs : List (String × JVal)) (n : Int)
    (h : jlookup kvs "total_views" = some (.jnum n)) :
    (get_and_increment_views (.stored (.jobj kvs))).1 = n + 1 ∧
    storedViews (get_and_increment_views (.stored (.jobj kvs))).2 = some (n + 1) ∧
    ∀ k : String, k ≠ "total_views" →
      fileField (get_and_increment_views (.stored (.jobj kvs))).2 k =
        fileField (.stored (.jobj kvs)) k := by
  refine ⟨?_, ?_, ?_⟩
  · simp [get_and_increment_views, h]
  · simp [get_and_increment_views, h, storedViews, jlookup_jset_self]
  · intro k hk
    simp [get_and_increment_views, h, fileField, jlookup_jset_other _ _ _ _ hk]

/-- C5 witness: the increment evaluated on a document with a second
field note, which is preserved. -/
theorem c5_increment_witness :
    (get_and_increment_views (.stored (.jobj
      [("total_views", .jnum 7), ("note", .jnull)]))).1 = 7 + 1 ∧
    storedViews (get_and_increment_views (.stored (.jobj
      [("total_views", .jnum 7), ("note", .jnull)]))).2 = some (7 + 1) ∧
    ∀ k : String, k ≠ "total_views" →
      fileField (get_and_increment_views (.stored (.jobj
        [("total_views", .jnum 7), ("note", .jnull)]))).2 k =
        fileField (.stored (.jobj [("total_views", .jnum 7), ("note", .jnull)])) k :=
  c5_increment [("total_views", .jnum 7), ("note", .jnull)] 7 rfl

/-- C6: when the counter file is missing or unreadable the increment
operation returns the sentinel -1 and the views endpoint still
completes, answering the JSON body with -1 and leaving the file as it
was. -/
theorem c6_failure_sentinel (env : Env)
    (h : env.views = ViewsFile.missing ∨ env.views = ViewsFile.unreadable) :
    (get_and_increment_views env.views).1 = -1 ∧
    (handle env "/api/views").resp = HttpResp.json (-1) ∧
    (handle env "/api/views").views = env.views := by
  have hroute : handle env "/api/views" = views_api env := rfl
  rcases h with h | h <;>
    rw [hroute] <;> simp [views_api, h, get_and_increment_views]

/-- C6 witness: the views endpoint on the environment whose counter
file was deleted. -/
theorem c6_failure_sentinel_witness :
    (get_and_increment_views envViewsMissing.views).1 = -1 ∧
    (handle envViewsMissing "/api/views").resp = HttpResp.json (-1) ∧
    (handle envViewsMissing "/api/views").views = envViewsMissing.views :=
  c6_failure_sentinel envViewsMissing (Or.inl rfl)

/-- C7: if enumerating the diary directory fails, or reading any
Markdown file of the listing fails, the diaries request produces no
partial page: the response is the generic server error 500 and no
action line is logged. -/
theorem c7_no_partial_listing (env : Env)
    (h : env.diaryList = Except.error () ∨
      ∃ files fn, env.diaryList = Except.ok files ∧ fn ∈ files ∧
        pyEndswith fn ".md" = true ∧ env.diaryRead fn = Except.error ()) :
    (handle env "/diaries").resp = HttpResp.serverError 500 ∧
    (handle env "/diaries").logs = [] := by
  have hroute : handle env "/diaries" = diaries_page env := rfl
  have hld : list_diaries env = .error () := by
    rcases h with h | ⟨files, fn, hfl, hmem, hmd, hrd⟩
    · simp [list_diaries, h]
    · have hmem2 : fn ∈ sortDesc files :=
        ((List.perm_insertionSort descStr files).mem_iff).mpr hmem
      simp [list_diaries, hfl,
        diariesLoop_error env.diaryRead env.render fn (sortDesc files) hmem2 hmd hrd]
  rw [hroute]
  simp [diaries_page, hld]

/-- C7 witness: a directory with one Markdown file whose read fails. -/
theorem c7_no_partial_listing_witness :
    (handle envDiaryFail "/diaries").resp = HttpResp.serverError 500 ∧
    (handle envDiaryFail "/diaries").logs = [] :=
  c7_no_partial_listing envDiaryFail
    (Or.inr ⟨["2024-01-01.md"], "2024-01-01.md", rfl, by simp, by decide, rfl⟩)

/-- C8: a request whose path matches no route is answered by a redirect
to the home route, and handling it emits exactly one log line, whose
action tag is 404 Redirect. -/
theorem c8_catch_all (env : Env) (path : String) (h : path ∉ routes) :
    (handle env path).resp = HttpResp.redirect "/" ∧
    (handle env path).logs.map LogLine.action = ["404 Redirect"] := by
  have h1 : path ≠ "/" := fun he => h (by rw [he]; simp [routes])
  have h2 : path ≠ "/thankyou" := fun he => h (by rw [he]; simp [routes])
  have h3 : path ≠ "/why" := fun he => h (by rw [he]; simp [routes])
  have h4 : path ≠ "/honour" := fun he => h (by rw [he]; simp [routes])
  have h5 : path ≠ "/diaries" := fun he => h (by rw [he]; simp [routes])
  have h6 : path ≠ "/goodbyes" := fun he => h (by rw [he]; simp [routes])
  have h7 : path ≠ "/api/views" := fun he => h (by rw [he]; simp [routes])
  have h8 : path ≠ "/parkour" := fun he => h (by rw [he]; simp [routes])
  have h9 : path ≠ "/weekly" := fun he => h (by rw [he]; simp [routes])
  have h10 : path ≠ "/projects" := fun he => h (by rw [he]; simp [routes])
  have hr : handle env path = page_not_found env := by
    unfold handle
    rw [if_neg h1, if_neg h2, if_neg h3, if_neg h4, if_neg h5, if_neg h6,
        if_neg h7, if_neg h8, if_neg h9, if_neg h10]
  rw [hr]
  exact ⟨rfl, rfl⟩

/-- C8 witness: the undefined path /nothing redirects home with one
404 Redirect log line. -/
theorem c8_catch_all_witness :
    (handle envBase "/nothing").resp = HttpResp.redirect "/" ∧
    (handle envBase "/nothing").logs.map LogLine.action = ["404 Redirect"] :=
  c8_catch_all envBase "/nothing" (by decide)

/-- C10: whenever the increment operation fails before its write step
(missing file, unreadable text, a non-object document, a missing
total_views key, or a non-numeric value there), it returns the sentinel
-1 and the counter file is left exactly as it was. -/
theorem c10_failure_atomic (s : ViewsFile) (h : incRaises s = true) :
    get_and_increment_views s = (-1, s) := by
  cases s with
  | missing => rfl
  | unreadable => rfl
  | stored v =>
    cases v with
    | jnull => rfl
    | jbool b => rfl
    | jnum n => rfl
    | jstr t => rfl
    | jarr xs => rfl
    | jobj kvs =>
      cases hlk : jlookup kvs "total_views" with
      | none => simp [get_and_increment_views, hlk]
      | some w =>
        cases w with
        | jnum n => simp [incRaises, hlk] at h
        | jbool b => simp [incRaises, hlk] at h
        | jnull => simp [get_and_increment_views, hlk]
        | jstr t => simp [get_and_increment_views, hlk]
        | jarr xs => simp [get_and_increment_views, hlk]
        | jobj kvs2 => simp [get_and_increment_views, hlk]

/-- C10 witness: the failed increment on the missing counter file
leaves the state unchanged. -/
theorem c10_failure_atomic_witness :
    get_and_increment_views ViewsFile.missing = (-1, ViewsFile.missing) :=
  c10_failure_atomic ViewsFile.missing rfl
